import Mathlib

/-!
Verification of the beta-estimation logic of the `non-linear-beta` repository.

The repository's scripts compute financial beta for a stock against a market
benchmark from aligned return series.  The definitions below are a shallow
embedding of the relevant Python code into Lean, with `ℚ` standing for the
floating-point values (all operations involved are field operations, so the
rational model is exact) and `ℕ` standing for timestamps of the (strictly
increasing) date index.  A `None` returned by a Python function is `none`.

Embedded code:
 * `beta_5year_comparison.py` — `calculate_beta_simple` and the per-symbol
   loop of `main`;
 * `corrected_beta_analysis.py` — `calculate_beta_fixed`;
 * `analyze_nvidia_beta.py` — the positional (index-free) return pairing of
   `analyze_nvidia_beta_periods`;
 * `final_test.py` — the `np.diff(prices) / prices[:-1]` return construction
   (the same function as `pct_change().dropna()`);
 * `yahoo_beta_replication.py` / `explain_beta_methods.py` — the
   sample-variance beta (Method A) and the regression slope (Method B).
-/

/-! ### Statistics primitives (numpy semantics)

`np.cov(x, y)[0, 1]` uses the sample convention (denominator `n - 1`);
`np.var(x)` without `ddof` uses the population convention (denominator `n`);
`np.var(x, ddof=1)` is the sample variance; `scipy.stats.linregress(x, y)`
returns the slope `Σ (x-x̄)(y-ȳ) / Σ (x-x̄)²`.  Division by zero is `0` in
Lean's `ℚ`; every use below is guarded by the code's own variance checks. -/

/-- Arithmetic mean of a list (`np.mean`); `0` for the empty list. -/
def mean (xs : List ℚ) : ℚ := xs.sum / xs.length

/-- `np.cov(xs, ys)[0, 1]`: sample covariance, denominator `n - 1` where
`n` is the number of paired observations. -/
def covSample (xs ys : List ℚ) : ℚ :=
  (List.zipWith (fun a b => (a - mean xs) * (b - mean ys)) xs ys).sum
    / ((xs.length : ℚ) - 1)

/-- `np.var(xs)` with the default `ddof=0`: population variance, denominator `n`. -/
def varPop (xs : List ℚ) : ℚ :=
  (xs.map (fun a => (a - mean xs) ^ 2)).sum / (xs.length : ℚ)

/-- `np.var(xs, ddof=1)`: sample variance, denominator `n - 1`
(as in `yahoo_beta_replication.py` line 97 and `explain_beta_methods.py`). -/
def varSample (xs : List ℚ) : ℚ :=
  (xs.map (fun a => (a - mean xs) ^ 2)).sum / ((xs.length : ℚ) - 1)

/-- The slope returned by `scipy.stats.linregress(x, y)` (regressing `y` on
`x`): `Σ (x-x̄)(y-ȳ) / Σ (x-x̄)²`, the formula spelled out manually in
`explain_beta_methods.py` line 152. -/
def olsSlope (x y : List ℚ) : ℚ :=
  (List.zipWith (fun a b => (a - mean x) * (b - mean y)) x y).sum
    / ((x.map (fun a => (a - mean x) ^ 2)).sum)

/-! ### Returns construction -/

/-- `prices.pct_change().dropna()` on a value array, equivalently
`np.diff(prices) / prices[:-1]` (`final_test.py` lines 21–22): the list of
consecutive percentage changes.  A total function: on fewer than two points
it yields the empty list (pandas drops the single `NaN` row; numpy's `diff`
of a short array is empty) — no error is raised anywhere in the code. -/
def pct_change (prices : List ℚ) : List ℚ :=
  List.zipWith (fun a b => (b - a) / a) prices prices.tail

/-- `series.pct_change().dropna()` on a timestamp-indexed series
(`corrected_beta_analysis.py` lines 79–80): each return keeps the timestamp
of the later price. -/
def pct_changeTS (s : List (ℕ × ℚ)) : List (ℕ × ℚ) :=
  List.zipWith (fun p q => (q.1, (q.2 - p.2) / p.2)) s s.tail

/-- Modelled from the spec's words only, for comparison with the source:
§4.1 requires the ReturnsBuilder to fail with `InsufficientDataError` when
the PriceSeries has fewer than 2 points, and otherwise produce the
percentage-change series.  The source's builder (`pct_change`) is total and
never fails, which is what claim C8's counterexample exhibits. -/
def returnsBuilderSpec (prices : List ℚ) : Option (List ℚ) :=
  if prices.length < 2 then none else some (pct_change prices)

/-! ### Alignment -/

/-- Timestamp-keyed intersection of two indexed series, the semantics of
`a.index.intersection(b.index)` followed by `.loc[common]` on both sides
(`beta_5year_comparison.py` lines 24–29, `corrected_beta_analysis.py`
lines 82–88): every entry of `a` whose timestamp also occurs in `b`, paired
with `b`'s value at that timestamp, in `a`'s (ascending) order. -/
def tsIntersect (a b : List (ℕ × ℚ)) : List (ℕ × ℚ × ℚ) :=
  a.filterMap (fun p => (b.lookup p.1).map (fun v => (p.1, p.2, v)))

/-- The pairing actually performed by `analyze_nvidia_beta.py` lines 54–59:
`.values` drops the timestamps from both return series, both arrays are
truncated to the shorter length (`[:min_len]`), and `np.cov` then pairs the
two arrays position by position.  The timestamps play no role. -/
def positionalTruncate (stockRet marketRet : List (ℕ × ℚ)) : List (ℚ × ℚ) :=
  (stockRet.map Prod.snd).zip (marketRet.map Prod.snd)

/-! ### Directional split and directional beta -/

/-- `market_ret > 0` mask applied to the paired observations
(`beta_5year_comparison.py` line 51): the positive-market subset. -/
def splitPos (l : List (ℚ × ℚ)) : List (ℚ × ℚ) := l.filter (fun p => 0 < p.2)

/-- `market_ret < 0` mask (`beta_5year_comparison.py` line 52): the
negative-market subset. -/
def splitNeg (l : List (ℚ × ℚ)) : List (ℚ × ℚ) := l.filter (fun p => p.2 < 0)

/-- The observations in neither directional subset: benchmark return
exactly zero. -/
def splitZero (l : List (ℚ × ℚ)) : List (ℚ × ℚ) := l.filter (fun p => p.2 = 0)

/-- The directional-beta computation of `beta_5year_comparison.py`
lines 57–71 (and, with `minCount = 20`, of `corrected_beta_analysis.py`
lines 102–112): if the subset has more than `minCount` observations and its
benchmark variance is positive, the covariance/variance ratio over exactly
that subset; otherwise the directional beta stays `None`. -/
def subsetBeta (minCount : ℕ) (sub : List (ℚ × ℚ)) : Option ℚ :=
  if minCount < sub.length then
    if 0 < varPop (sub.map Prod.snd) then
      some (covSample (sub.map Prod.fst) (sub.map Prod.snd)
            / varPop (sub.map Prod.snd))
    else none
  else none

/-- The overall covariance/variance beta of `beta_5year_comparison.py`
lines 41–47 as a function of a list of paired observations: `np.cov`
(sample) over `np.var` (population), `None` when the benchmark variance is
zero. -/
def betaCovVar (sub : List (ℚ × ℚ)) : Option ℚ :=
  if varPop (sub.map Prod.snd) = 0 then none
  else
    some (covSample (sub.map Prod.fst) (sub.map Prod.snd)
          / varPop (sub.map Prod.snd))

/-! ### `beta_5year_comparison.py`: `calculate_beta_simple` and `main` -/

/-- The dictionary returned by `calculate_beta_simple` (correlation, an
irrational square root no claim refers to, is not modelled). -/
structure Report where
  beta : ℚ
  positive_beta : Option ℚ
  negative_beta : Option ℚ
  data_points : ℕ
  positive_days : ℕ
  negative_days : ℕ
deriving DecidableEq

/-- Stock returns after alignment: close prices at the common dates, then
`pct_change().dropna()` (`beta_5year_comparison.py` lines 28–32). -/
def stockAlignedReturns (stock market : List (ℕ × ℚ)) : List ℚ :=
  pct_change ((tsIntersect stock market).map (fun t => t.2.1))

/-- Market returns after alignment (`beta_5year_comparison.py`
lines 29–33). -/
def marketAlignedReturns (stock market : List (ℕ × ℚ)) : List ℚ :=
  pct_change ((tsIntersect stock market).map (fun t => t.2.2))

/-- `calculate_beta_simple` lines 35–81, after the returns are built: both
return arrays are truncated to the shorter length (a no-op here, kept as in
the source), the zero-variance guard is applied, and the report is built
with the overall beta and both directional betas (threshold `> 10`). -/
def estimateFromReturns (stock_returns market_returns : List ℚ) : Option Report :=
  let min_len := min stock_returns.length market_returns.length
  let stock_ret := stock_returns.take min_len
  let market_ret := market_returns.take min_len
  if varPop market_ret = 0 then none
  else
    some
      { beta := covSample stock_ret market_ret / varPop market_ret
        positive_beta := subsetBeta 10 (splitPos (stock_ret.zip market_ret))
        negative_beta := subsetBeta 10 (splitNeg (stock_ret.zip market_ret))
        data_points := stock_ret.length
        positive_days := (splitPos (stock_ret.zip market_ret)).length
        negative_days := (splitNeg (stock_ret.zip market_ret)).length }

/-- `calculate_beta_simple(stock_data, market_data)`
(`beta_5year_comparison.py` lines 18–85): align the two price series on
their common dates, require at least 50 of them, build returns and
estimate.  `none` is the Python `None`. -/
def calculate_beta_simple (stock market : List (ℕ × ℚ)) : Option Report :=
  if (tsIntersect stock market).length < 50 then none
  else
    estimateFromReturns (stockAlignedReturns stock market)
      (marketAlignedReturns stock market)

/-- The observable per-symbol outcome of the loop in `main`
(`beta_5year_comparison.py` lines 111–124): which message/branch the
consumer of the computation sees for one symbol. -/
inductive SymbolOutcome where
  | insufficientData : SymbolOutcome
  | betaFailed : SymbolOutcome
  | success : Report → SymbolOutcome
deriving DecidableEq

/-- `main`'s handling of one symbol (`beta_5year_comparison.py`
lines 111–124): `getBars` returning `None` (its `except` branch, lines
113–115 of `getBars.py`, i.e. a data-source failure) and a series shorter
than 50 rows (insufficient history) reach the same
`"Insufficient 5-year data"` branch; a `None` from
`calculate_beta_simple` reaches the `"Beta calculation failed"` branch. -/
def processSymbol (stock_data : Option (List (ℕ × ℚ)))
    (market_data : List (ℕ × ℚ)) : SymbolOutcome :=
  match stock_data with
  | none => SymbolOutcome.insufficientData
  | some sd =>
    if sd.length < 50 then SymbolOutcome.insufficientData
    else
      match calculate_beta_simple sd market_data with
      | none => SymbolOutcome.betaFailed
      | some r => SymbolOutcome.success r

/-! ### `corrected_beta_analysis.py`: `calculate_beta_fixed` -/

/-- The `beta_ratio` entry of `calculate_beta_fixed`'s result
(`corrected_beta_analysis.py` line 119):
`positive_beta / negative_beta if positive_beta and negative_beta and
negative_beta != 0 else None`.  Python truthiness makes `None` *and* the
float `0.0` falsy, so the guard demands both betas present and nonzero. -/
def betaRatio (pb nb : Option ℚ) : Option ℚ :=
  match pb, nb with
  | some p, some n => if p ≠ 0 ∧ n ≠ 0 then some (p / n) else none
  | _, _ => none

/-- The dictionary returned by `calculate_beta_fixed`
(`corrected_beta_analysis.py` lines 114–124). -/
structure FixedReport where
  traditional_beta : ℚ
  positive_beta : Option ℚ
  negative_beta : Option ℚ
  beta_ratio : Option ℚ
  data_points : ℕ
  positive_days : ℕ
  negative_days : ℕ
deriving DecidableEq

/-- `calculate_beta_fixed(stock_data, market_data)`
(`corrected_beta_analysis.py` lines 73–124): returns are built per series
first, the two *return* series are intersected on timestamps (at least 50
required), then the same covariance/variance estimator runs with
directional threshold `> 20`. -/
def calculate_beta_fixed (stock market : List (ℕ × ℚ)) : Option FixedReport :=
  let stock_returns := pct_changeTS stock
  let market_returns := pct_changeTS market
  let common := tsIntersect stock_returns market_returns
  if common.length < 50 then none
  else
    let s := common.map (fun t => t.2.1)
    let m := common.map (fun t => t.2.2)
    if varPop m = 0 then none
    else
      let pb := subsetBeta 20 (splitPos (s.zip m))
      let nb := subsetBeta 20 (splitNeg (s.zip m))
      some
        { traditional_beta := covSample s m / varPop m
          positive_beta := pb
          negative_beta := nb
          beta_ratio := betaRatio pb nb
          data_points := common.length
          positive_days := (splitPos (s.zip m)).length
          negative_days := (splitNeg (s.zip m)).length }

/-! ### Supporting lemmas -/

/-- `pct_change` always yields one fewer entry than its input (pandas drops
the undefined first difference). -/
theorem pct_change_length (ps : List ℚ) : (pct_change ps).length = ps.length - 1 := by
  unfold pct_change
  rw [List.length_zipWith, List.length_tail]
  omega

/-- The entry of `pct_change` at position `i` is the percentage change from
price `i` to price `i + 1`. -/
theorem pct_change_get (ps : List ℚ) (i : ℕ) (hi : i + 1 < ps.length) :
    (pct_change ps).get? i = some ((ps[i + 1] - ps[i]) / ps[i]) := by
  induction ps generalizing i with
  | nil => simp at hi
  | cons a t ih =>
    cases t with
    | nil => simp at hi
    | cons b t2 =>
      cases i with
      | zero => rfl
      | succ j =>
        have hj : j + 1 < (b :: t2).length := by
          simpa using Nat.lt_of_succ_lt_succ hi
        simpa [pct_change, List.zipWith] using ih j hj

/-- A list only of equal values has zero population variance. -/
theorem varPop_nonneg (xs : List ℚ) : 0 ≤ varPop xs := by
  unfold varPop
  apply div_nonneg
  · apply List.sum_nonneg
    intro x hx
    simp only [List.mem_map] at hx
    obtain ⟨a, _, rfl⟩ := hx
    positivity
  · positivity

/-- The three directional filters partition the length of the aligned
list. -/
theorem split_lengths (l : List (ℚ × ℚ)) :
    (splitPos l).length + (splitNeg l).length + (splitZero l).length = l.length := by
  induction l with
  | nil => rfl
  | cons x t ih =>
    rcases lt_trichotomy x.2 0 with h | h | h
    · simp only [splitPos, splitNeg, splitZero, List.filter_cons] at *
      simp [h, not_lt.mpr h.le, h.ne]
      omega
    · simp only [splitPos, splitNeg, splitZero, List.filter_cons] at *
      simp [h]
      omega
    · simp only [splitPos, splitNeg, splitZero, List.filter_cons] at *
      simp [h, not_lt.mpr h.le, h.ne.symm]
      omega

/-- Both aligned return vectors have the same length (one less than the
number of common dates). -/
theorem alignedReturns_length (stock market : List (ℕ × ℚ)) :
    (stockAlignedReturns stock market).length
      = (marketAlignedReturns stock market).length := by
  unfold stockAlignedReturns marketAlignedReturns
  rw [pct_change_length, pct_change_length, List.length_map, List.length_map]

/-- With equal-length return vectors the `[:min_len]` truncation of
`calculate_beta_simple` is a no-op, and the estimate takes its closed
form. -/
theorem estimateFromReturns_eq (sr mr : List ℚ) (hl : sr.length = mr.length) :
    estimateFromReturns sr mr =
      if varPop mr = 0 then none
      else
        some
          { beta := covSample sr mr / varPop mr
            positive_beta := subsetBeta 10 (splitPos (sr.zip mr))
            negative_beta := subsetBeta 10 (splitNeg (sr.zip mr))
            data_points := sr.length
            positive_days := (splitPos (sr.zip mr)).length
            negative_days := (splitNeg (sr.zip mr)).length } := by
  have hts : List.take mr.length sr = sr := by rw [← hl]; exact List.take_length sr
  simp only [estimateFromReturns, hl, min_self, hts, List.take_length]

/-- Summing the centered products is symmetric in the two series. -/
theorem sum_zipWith_centered_comm (s m : List ℚ) (a b : ℚ) :
    (List.zipWith (fun x y => (x - a) * (y - b)) s m).sum
      = (List.zipWith (fun y x => (y - b) * (x - a)) m s).sum := by
  induction s generalizing m with
  | nil => cases m <;> simp
  | cons x xs ih =>
    cases m with
    | nil => simp
    | cons y ys => simp [List.zipWith, ih, mul_comm]

/-- A positive sample variance forces a nonzero sum of squared deviations
and a nonzero `n - 1` denominator. -/
theorem varSample_pos_facts (m : List ℚ) (hv : 0 < varSample m) :
    (m.map (fun a => (a - mean m) ^ 2)).sum ≠ 0 ∧ ((m.length : ℚ) - 1) ≠ 0 := by
  unfold varSample at hv
  constructor
  · intro h
    rw [h, zero_div] at hv
    exact lt_irrefl 0 hv
  · intro h
    rw [h, div_zero] at hv
    exact lt_irrefl 0 hv

/-! ### The claims -/

/-- Claim C3 (confirmed): for every aligned pair with positive sample
benchmark variance, the covariance/variance beta computed with the sample
convention on both sides (`yahoo_beta_replication.py` lines 95–99, Method A
with `ddof=1`) equals the OLS regression slope of asset on benchmark
(Method B, `stats.linregress`) — exactly, hence in particular to within
`1e-9` relative tolerance. -/
theorem C3_cov_var_beta_equals_ols_slope (s m : List ℚ)
    (hl : s.length = m.length) (hv : 0 < varSample m) :
    covSample s m / varSample m = olsSlope m s ∧
    |covSample s m / varSample m - olsSlope m s|
      ≤ |olsSlope m s| / 1000000000 := by
  obtain ⟨hS, hd⟩ := varSample_pos_facts m hv
  have key : covSample s m / varSample m = olsSlope m s := by
    unfold covSample varSample olsSlope
    rw [hl, sum_zipWith_centered_comm s m (mean s) (mean m)]
    field_simp
  refine ⟨key, ?_⟩
  rw [key, sub_self, abs_zero]
  positivity

/-- Claim C4 (confirmed): the directional split of
`beta_5year_comparison.py` lines 51–52 partitions the aligned observations
strictly by the sign of the benchmark return: a positive benchmark return
puts the observation in the positive subset only, a negative one in the
negative subset only, a zero one in neither; the two subsets are disjoint
and together with the zero set they exhaust the aligned list. -/
theorem C4_directional_split_partition (l : List (ℚ × ℚ)) :
    (∀ x ∈ l, 0 < x.2 → x ∈ splitPos l ∧ x ∉ splitNeg l ∧ x ∉ splitZero l) ∧
    (∀ x ∈ l, x.2 < 0 → x ∉ splitPos l ∧ x ∈ splitNeg l ∧ x ∉ splitZero l) ∧
    (∀ x ∈ l, x.2 = 0 → x ∉ splitPos l ∧ x ∉ splitNeg l ∧ x ∈ splitZero l) ∧
    (∀ x, ¬(x ∈ splitPos l ∧ x ∈ splitNeg l)) ∧
    (splitPos l).length + (splitNeg l).length + (splitZero l).length
      = l.length := by
  refine ⟨?_, ?_, ?_, ?_, split_lengths l⟩
  · intro x hx h
    refine ⟨List.mem_filter.mpr ⟨hx, by simpa using h⟩, ?_, ?_⟩
    · intro hc
      have := (List.mem_filter.mp hc).2
      simp only [decide_eq_true_eq] at this
      exact absurd this (not_lt.mpr h.le)
    · intro hc
      have := (List.mem_filter.mp hc).2
      simp only [decide_eq_true_eq] at this
      exact absurd this h.ne'
  · intro x hx h
    refine ⟨?_, List.mem_filter.mpr ⟨hx, by simpa using h⟩, ?_⟩
    · intro hc
      have := (List.mem_filter.mp hc).2
      simp only [decide_eq_true_eq] at this
      exact absurd this (not_lt.mpr h.le)
    · intro hc
      have := (List.mem_filter.mp hc).2
      simp only [decide_eq_true_eq] at this
      exact absurd this h.ne
  · intro x hx h
    refine ⟨?_, ?_, List.mem_filter.mpr ⟨hx, by simpa using h⟩⟩
    · intro hc
      have := (List.mem_filter.mp hc).2
      simp only [decide_eq_true_eq] at this
      exact absurd h this.ne'
    · intro hc
      have := (List.mem_filter.mp hc).2
      simp only [decide_eq_true_eq] at this
      exact absurd h this.ne
  · rintro x ⟨hp, hn⟩
    have h1 := (List.mem_filter.mp hp).2
    have h2 := (List.mem_filter.mp hn).2
    simp only [decide_eq_true_eq] at h1 h2
    exact absurd h1 (not_lt.mpr h2.le)

/-- Claim C5 (confirmed): a directional subset at or above the effective
minimum size (the code tests `count > minCount`, so the minimum is
`minCount + 1`) gets its beta from exactly that subset's observations by
the same covariance/variance rule as the overall beta (`betaCovVar` — the
`0 < var` and `var ≠ 0` guards agree because a variance is nonnegative);
a subset below the minimum reports the distinguishable absent value
`none`, never the number `0`. -/
theorem C5_directional_beta_threshold (k : ℕ) (subA subB : List (ℚ × ℚ))
    (hA : k < subA.length) (hB : subB.length ≤ k) :
    subsetBeta k subA = betaCovVar subA ∧
    subsetBeta k subB = none ∧ subsetBeta k subB ≠ some 0 := by
  have h2 : subsetBeta k subB = none := by
    unfold subsetBeta
    rw [if_neg (not_lt.mpr hB)]
  refine ⟨?_, h2, by simp [h2]⟩
  unfold subsetBeta betaCovVar
  rw [if_pos hA]
  by_cases hv : varPop (subA.map Prod.snd) = 0
  · rw [if_neg (by rw [hv]; exact lt_irrefl 0), if_pos hv]
  · have hpos : 0 < varPop (subA.map Prod.snd) :=
      lt_of_le_of_ne (varPop_nonneg _) (Ne.symm hv)
    rw [if_pos hpos, if_neg hv]

/-- Claim C6 (confirmed): when the aligned benchmark returns have exactly
zero variance (a flat benchmark window), `calculate_beta_simple` fails —
it returns Python's `None` before any division happens — and never
produces a beta value. -/
theorem C6_zero_benchmark_variance_fails (stock market : List (ℕ × ℚ))
    (h : varPop (marketAlignedReturns stock market) = 0) :
    calculate_beta_simple stock market = none := by
  unfold calculate_beta_simple
  split
  · rfl
  · rw [estimateFromReturns_eq _ _ (alignedReturns_length stock market),
      if_pos h]

/-- Claim C8 (amended): the derived return list has length
`len(prices) − 1` and its entry at position `i` is
`(price[i+1] − price[i]) / price[i]`; on a series of fewer than two points
the construction yields the *empty* return series rather than failing
(no `InsufficientDataError` exists in the code — undersized data is only
rejected later by the minimum-sample checks). -/
theorem C8_returns_formula (ps qs : List ℚ) (i : ℕ)
    (hi : i + 1 < ps.length) (hq : qs.length < 2) :
    (pct_change ps).length = ps.length - 1 ∧
    (pct_change ps).get? i = some ((ps[i + 1] - ps[i]) / ps[i]) ∧
    pct_change qs = [] := by
  refine ⟨pct_change_length ps, pct_change_get ps i hi, ?_⟩
  have h1 := pct_change_length qs
  have h0 : (pct_change qs).length = 0 := by omega
  exact List.length_eq_zero.mp h0

/-- Claim C9 (amended): an insufficient-history input and a data-source
failure (`getBars` returning `None`) are *not* distinguishable at the
interface — both reach the very same `"Insufficient 5-year data"` outcome
of the per-symbol loop. -/
theorem C9_failure_causes_collapse (md sd : List (ℕ × ℚ))
    (h : sd.length < 50) :
    processSymbol none md = SymbolOutcome.insufficientData ∧
    processSymbol (some sd) md = SymbolOutcome.insufficientData := by
  constructor
  · rfl
  · simp [processSymbol, h]

/-- Claim C10 (confirmed): for a directional subset over the size
threshold, a beta is produced only when the subset's benchmark variance is
strictly positive — zero variance yields the absent value and the division
is never performed against a zero variance. -/
theorem C10_directional_variance_guard (k : ℕ) (sub : List (ℚ × ℚ))
    (hc : k < sub.length) :
    (varPop (sub.map Prod.snd) = 0 → subsetBeta k sub = none) ∧
    (∀ b, subsetBeta k sub = some b →
      0 < varPop (sub.map Prod.snd) ∧
      b = covSample (sub.map Prod.fst) (sub.map Prod.snd)
            / varPop (sub.map Prod.snd)) := by
  constructor
  · intro hv
    unfold subsetBeta
    rw [if_pos hc, if_neg (by rw [hv]; exact lt_irrefl 0)]
  · intro b hb
    unfold subsetBeta at hb
    rw [if_pos hc] at hb
    by_cases hv : 0 < varPop (sub.map Prod.snd)
    · rw [if_pos hv] at hb
      exact ⟨hv, (Option.some.inj hb).symm⟩
    · rw [if_neg hv] at hb
      exact absurd hb (by simp)

/-- Claim C1 (amended): whenever `calculate_beta_simple` succeeds, the
traditional beta it reports is the *sample* covariance (`np.cov`,
denominator `n − 1`) divided by the *population* variance (`np.var`
without `ddof`, denominator `n`) of the aligned returns — not the
fully-sample-convention ratio the claim states. -/
theorem C1_beta_is_sample_cov_over_population_var
    (stock market : List (ℕ × ℚ))
    (h : calculate_beta_simple stock market ≠ none) :
    (calculate_beta_simple stock market).map Report.beta =
      some (covSample (stockAlignedReturns stock market)
              (marketAlignedReturns stock market)
            / varPop (marketAlignedReturns stock market)) := by
  unfold calculate_beta_simple at h ⊢
  rw [estimateFromReturns_eq _ _ (alignedReturns_length stock market)] at h ⊢
  by_cases h50 : (tsIntersect stock market).length < 50
  · rw [if_pos h50] at h
    exact absurd rfl h
  · rw [if_neg h50] at h ⊢
    by_cases hv : varPop (marketAlignedReturns stock market) = 0
    · rw [if_pos hv] at h
      exact absurd rfl h
    · rw [if_neg hv] at h ⊢
      rfl

/-! ### Concrete inputs for the closed theorems

`c1Stock` is a 51-day price series alternating between 4 and 2, so its
daily returns alternate between −1/2 and +1 (nonzero variance); `c6Market`
is a 51-day series at the constant price 3, so its returns are all zero
(zero variance).  Both pass the 50-common-dates gate of
`calculate_beta_simple`. -/

def c1Stock : List (ℕ × ℚ) :=
  (List.range 51).map (fun i => (i, if i % 2 = 0 then (4 : ℚ) else 2))

def c6Market : List (ℕ × ℚ) :=
  (List.range 51).map (fun i => (i, (3 : ℚ)))

set_option maxRecDepth 40000 in
unseal Rat.add Rat.mul Rat.sub Rat.inv in
/-- Claim C1's counterexample: on the concrete 51-point series the
benchmark's sample variance is nonzero, yet the beta reported by
`calculate_beta_simple` is *not* `Cov_sample / Var_sample` (the code's
population-variance denominator makes it `50/49` times larger here). -/
theorem C1_sample_convention_cex :
    varSample (marketAlignedReturns c1Stock c1Stock) ≠ 0 ∧
    (calculate_beta_simple c1Stock c1Stock).map Report.beta ≠
      some (covSample (stockAlignedReturns c1Stock c1Stock)
              (marketAlignedReturns c1Stock c1Stock)
            / varSample (marketAlignedReturns c1Stock c1Stock)) := by
  decide

set_option maxRecDepth 40000 in
unseal Rat.add Rat.mul Rat.sub Rat.inv in
/-- Witness for claim C1's theorem at the concrete 51-point input. -/
theorem C1_population_var_witness :
    (calculate_beta_simple c1Stock c1Stock).map Report.beta =
      some (covSample (stockAlignedReturns c1Stock c1Stock)
              (marketAlignedReturns c1Stock c1Stock)
            / varPop (marketAlignedReturns c1Stock c1Stock)) :=
  C1_beta_is_sample_cov_over_population_var c1Stock c1Stock (by decide)

unseal Rat.add Rat.mul Rat.sub Rat.inv in
/-- Claim C2's divergence, evaluated: with the benchmark return series
missing timestamp 2, the positional pairing of `analyze_nvidia_beta.py`
couples the asset return recorded at timestamp 2 with the benchmark
return recorded at timestamp 3 and drops the asset return at timestamp 3,
where the timestamp intersection pairs equal timestamps only; and for two
series with disjoint timestamps the positional pair has length 2 while
the timestamp intersection is empty. -/
theorem C2_positional_alignment_eval :
    positionalTruncate [(1, (10 : ℚ)), (2, 20), (3, 30)]
        [(1, (100 : ℚ)), (3, 300)]
      = [((10 : ℚ), (100 : ℚ)), (20, 300)] ∧
    tsIntersect [(1, (10 : ℚ)), (2, 20), (3, 30)] [(1, (100 : ℚ)), (3, 300)]
      = [(1, (10 : ℚ), 100), (3, 30, 300)] ∧
    (positionalTruncate [(1, (1 : ℚ)), (2, 1)] [(3, (1 : ℚ)), (4, 1)]).length
      = 2 ∧
    (tsIntersect [(1, (1 : ℚ)), (2, 1)] [(3, (1 : ℚ)), (4, 1)]).length = 0 := by
  decide

unseal Rat.add Rat.mul Rat.sub Rat.inv in
/-- Claim C7's divergence, evaluated: a positive beta that is available
with value `0.0` together with an available nonzero negative beta yields
`beta_ratio = None` (Python's truthiness test `if positive_beta and ...`
treats the float `0.0` as falsy), not the value `0.0` the claim states;
with both betas nonzero the ratio is produced as claimed. -/
theorem C7_beta_ratio_truthiness_eval :
    betaRatio (some 0) (some 1) = none ∧
    betaRatio (some 0) (some 1) ≠ some 0 ∧
    betaRatio (some 1) (some 2) = some (1 / 2) := by
  decide

unseal Rat.add Rat.mul Rat.sub Rat.inv in
/-- Claim C8's counterexample: on the one-point price series `[5]` the
returns construction *produces a result* — the empty return series — and
does not fail, unlike the builder the spec describes
(`returnsBuilderSpec`), which refuses series of fewer than 2 points. -/
theorem C8_short_series_produces_result :
    pct_change [5] = [] ∧ returnsBuilderSpec [5] = none ∧
    (some (pct_change [5]) : Option (List ℚ)) ≠ returnsBuilderSpec [5] := by
  decide

/-- Claim C9's counterexample: a data-source failure (`getBars` returning
`None`) and an insufficient-history series (1 row < 50) produce one and
the same observable outcome — the generic insufficient-data skip — so the
two causes are not distinguishable at the interface. -/
theorem C9_same_outcome_for_both_causes :
    processSymbol none [] = SymbolOutcome.insufficientData ∧
    processSymbol (some [(1, (5 : ℚ))]) [] = SymbolOutcome.insufficientData ∧
    processSymbol none [] = processSymbol (some [(1, (5 : ℚ))]) [] := by
  decide

unseal Rat.add Rat.mul Rat.sub Rat.inv in
/-- Witness for claim C3's theorem at a concrete three-point pair. -/
theorem C3_slope_witness :
    covSample [(2 : ℚ), 4, 8] [(1 : ℚ), 2, 3] / varSample [(1 : ℚ), 2, 3]
      = olsSlope [(1 : ℚ), 2, 3] [(2 : ℚ), 4, 8] ∧
    |covSample [(2 : ℚ), 4, 8] [(1 : ℚ), 2, 3] / varSample [(1 : ℚ), 2, 3]
        - olsSlope [(1 : ℚ), 2, 3] [(2 : ℚ), 4, 8]|
      ≤ |olsSlope [(1 : ℚ), 2, 3] [(2 : ℚ), 4, 8]| / 1000000000 :=
  C3_cov_var_beta_equals_ols_slope [2, 4, 8] [1, 2, 3] rfl (by decide)

/-- Witness for claim C5's theorem: an 11-observation subset is at the
effective minimum for threshold value 10, a 3-observation subset is
below it. -/
theorem C5_threshold_witness :
    subsetBeta 10
        [((1 : ℚ), (1 : ℚ)), (2, 2), (3, 3), (4, 4), (5, 5), (6, 6), (7, 7),
          (8, 8), (9, 9), (10, 10), (11, 11)]
      = betaCovVar
          [((1 : ℚ), (1 : ℚ)), (2, 2), (3, 3), (4, 4), (5, 5), (6, 6), (7, 7),
            (8, 8), (9, 9), (10, 10), (11, 11)] ∧
    subsetBeta 10 [((1 : ℚ), (1 : ℚ)), (2, 2), (3, 3)] = none ∧
    subsetBeta 10 [((1 : ℚ), (1 : ℚ)), (2, 2), (3, 3)] ≠ some 0 :=
  C5_directional_beta_threshold 10 _ _ (by decide) (by decide)

set_option maxRecDepth 40000 in
unseal Rat.add Rat.mul Rat.sub Rat.inv in
/-- Witness for claim C6's theorem: against the all-flat 51-day benchmark
`c6Market` the aligned benchmark returns are all zero, and the estimation
returns `None`. -/
theorem C6_flat_benchmark_witness :
    calculate_beta_simple c1Stock c6Market = none :=
  C6_zero_benchmark_variance_fails c1Stock c6Market (by decide)

/-- Witness for claim C8's theorem at the concrete series `[4, 2, 4]`
(index 1) and the undersized series `[5]`. -/
theorem C8_returns_witness :
    (pct_change [(4 : ℚ), 2, 4]).length = [(4 : ℚ), 2, 4].length - 1 ∧
    (pct_change [(4 : ℚ), 2, 4]).get? 1
      = some (([(4 : ℚ), 2, 4][2] - [(4 : ℚ), 2, 4][1]) / [(4 : ℚ), 2, 4][1]) ∧
    pct_change [(5 : ℚ)] = [] :=
  C8_returns_formula [4, 2, 4] [5] 1 (by decide) (by decide)

/-- Witness for claim C9's theorem: the provider-failure input and a
one-row price series both land in the insufficient-data outcome. -/
theorem C9_collapse_witness :
    processSymbol none [(1, (7 : ℚ))] = SymbolOutcome.insufficientData ∧
    processSymbol (some [(1, (5 : ℚ))]) [(1, (7 : ℚ))]
      = SymbolOutcome.insufficientData :=
  C9_failure_causes_collapse [(1, 7)] [(1, 5)] (by decide)

/-- Witness for claim C10's theorem on an over-threshold 11-observation
subset. -/
theorem C10_variance_guard_witness :
    (varPop
          (([((2 : ℚ), (1 : ℚ)), (2, 1), (2, 1), (2, 1), (2, 1), (2, 1),
              (2, 1), (2, 1), (2, 1), (2, 1), (2, 1)]).map Prod.snd)
        = 0 →
      subsetBeta 10
          [((2 : ℚ), (1 : ℚ)), (2, 1), (2, 1), (2, 1), (2, 1), (2, 1),
            (2, 1), (2, 1), (2, 1), (2, 1), (2, 1)]
        = none) ∧
    (∀ b,
      subsetBeta 10
          [((2 : ℚ), (1 : ℚ)), (2, 1), (2, 1), (2, 1), (2, 1), (2, 1),
            (2, 1), (2, 1), (2, 1), (2, 1), (2, 1)]
        = some b →
      0 < varPop
            (([((2 : ℚ), (1 : ℚ)), (2, 1), (2, 1), (2, 1), (2, 1), (2, 1),
                (2, 1), (2, 1), (2, 1), (2, 1), (2, 1)]).map Prod.snd) ∧
      b = covSample
            (([((2 : ℚ), (1 : ℚ)), (2, 1), (2, 1), (2, 1), (2, 1), (2, 1),
                (2, 1), (2, 1), (2, 1), (2, 1), (2, 1)]).map Prod.fst)
            (([((2 : ℚ), (1 : ℚ)), (2, 1), (2, 1), (2, 1), (2, 1), (2, 1),
                (2, 1), (2, 1), (2, 1), (2, 1), (2, 1)]).map Prod.snd)
          / varPop
              (([((2 : ℚ), (1 : ℚ)), (2, 1), (2, 1), (2, 1), (2, 1), (2, 1),
                  (2, 1), (2, 1), (2, 1), (2, 1), (2, 1)]).map Prod.snd)) :=
  C10_directional_variance_guard 10 _ (by decide)
